import Mathlib

/-!
Shallow embedding of `src/merge_markdown.py` (repository Cedaric/Fili).

The script `merge_markdown_files` reads `config.json`, extracts a `chapters`
list and a `siteInfo` mapping, and concatenates the files named by `chapters`
from the `content` directory into `merged_output.md`, writing a header first
and counting successes, missing files and read errors.

Modelling choices:
* JSON values are the inductive `JValue`; Python dict `.get` is `jGet`
  (raising `AttributeError` on non-dict receivers), Python truthiness is
  `truthy`, Python `len` is `pyLen` and Python iteration is `pyIter`
  (both raising `TypeError` on non-sized / non-iterable values).
* The filesystem is a map `Fs` from paths to nodes.  A file node records how
  the two text reads behave: decodes as UTF-8, decodes only under the GBK
  fallback, decodes under neither, or raises a non-decoding `OSError`
  (for instance a directory).  `os.path.join` is `osPath_join`.
* Loading `config.json` is summarised by `LoadResult` (file absent, invalid
  JSON, or a parsed value).
* the timestamp produced by `datetime.now().strftime` with format
  `%Y-%m-%d %H:%M:%S` is passed in as the opaque string `now`.
* Python `str.strip` is modelled by `pyStrip`.
* An uncaught Python exception is the `Except.error` result (the process then
  exits with a traceback and a nonzero status); a normal return is
  `Except.ok` (the process exits with status 0).  Writes to the already
  opened output file are assumed not to raise.
-/

inductive JValue where
  | jnull
  | jbool (b : Bool)
  | jnum (n : Int)
  | jstr (s : String)
  | jarr (elems : List JValue)
  | jobj (fields : List (String × JValue))

/-- The exceptions the modelled code can raise past the top level. -/
inductive PyExc where
  | attributeError
  | typeError
deriving DecidableEq

/-- How reading a file as text behaves, covering both the UTF-8 read and the
GBK fallback read performed by the script. -/
inductive FileNode where
  | utf8 (content : String)
  | gbkOnly (content : String)
  | undecodable
  | unreadable (msg : String)
deriving DecidableEq

/-- A filesystem node: a directory or a regular file. -/
inductive FsNode where
  | dir
  | file (f : FileNode)
deriving DecidableEq

/-- The filesystem: a partial map from paths to nodes;
`none` means the path does not exist. -/
abbrev Fs := String → Option FsNode

/-- Result of `json.load` on `config.json`: missing file, malformed JSON,
or a parsed JSON value. -/
inductive LoadResult where
  | notFound
  | badJson (msg : String)
  | ok (v : JValue)

/-- First field with the given key (JSON objects have distinct keys). -/
def lookupField : List (String × JValue) → String → Option JValue
  | [], _ => none
  | (k, v) :: rest, key => if k = key then some v else lookupField rest key

/-- Python `d.get(key, default)`: raises `AttributeError` unless the receiver
is a dict. -/
def jGet (v : JValue) (key : String) (dflt : JValue) : Except PyExc JValue :=
  match v with
  | .jobj kvs => .ok ((lookupField kvs key).getD dflt)
  | _ => .error .attributeError

/-- Python truthiness of a JSON value. -/
def truthy : JValue → Bool
  | .jnull => false
  | .jbool b => b
  | .jnum n => n != 0
  | .jstr s => !s.isEmpty
  | .jarr xs => !xs.isEmpty
  | .jobj kvs => !kvs.isEmpty

/-- Python `len`: defined for strings, lists and dicts, `TypeError` otherwise. -/
def pyLen : JValue → Except PyExc Nat
  | .jstr s => .ok s.length
  | .jarr xs => .ok xs.length
  | .jobj kvs => .ok kvs.length
  | _ => .error .typeError

/-- Python iteration: lists yield elements, strings yield one-character
strings, dicts yield their keys; other values raise `TypeError`. -/
def pyIter : JValue → Except PyExc (List JValue)
  | .jarr xs => .ok xs
  | .jstr s => .ok (s.toList.map (fun c => .jstr (String.mk [c])))
  | .jobj kvs => .ok (kvs.map (fun kv => .jstr kv.1))
  | _ => .error .typeError

mutual

/-- Python `repr` of a JSON value (simplified: no escaping inside strings). -/
def pyRepr : JValue → String
  | .jnull => "None"
  | .jbool true => "True"
  | .jbool false => "False"
  | .jnum n => toString n
  | .jstr s => "\x27" ++ s ++ "\x27"
  | .jarr xs => "[" ++ pyReprList xs ++ "]"
  | .jobj kvs => "\x7b" ++ pyReprFields kvs ++ "\x7d"

/-- Comma-separated reprs of list elements. -/
def pyReprList : List JValue → String
  | [] => ""
  | [v] => pyRepr v
  | v :: vs => pyRepr v ++ ", " ++ pyReprList vs

/-- Comma-separated reprs of dict entries. -/
def pyReprFields : List (String × JValue) → String
  | [] => ""
  | [(k, v)] => "\x27" ++ k ++ "\x27: " ++ pyRepr v
  | (k, v) :: kvs => "\x27" ++ k ++ "\x27: " ++ pyRepr v ++ ", " ++ pyReprFields kvs

end

/-- Python `str` of a JSON value, as used by f-string interpolation. -/
def pyStr : JValue → String
  | .jstr s => s
  | v => pyRepr v

/-- Dropping leading whitespace characters, for the model of `str.strip`. -/
def pyStripLeft : List Char → List Char
  | [] => []
  | c :: cs => if c.isWhitespace then pyStripLeft cs else c :: cs

/-- Python `str.strip()`: remove leading and trailing whitespace. -/
def pyStrip (s : String) : String :=
  String.mk ((pyStripLeft (pyStripLeft s.data).reverse).reverse)

/-- Python `os.path.join(a, b)` for the paths the script builds: an absolute
second component replaces the first, otherwise the components are joined with
a slash. -/
def osPath_join (a b : String) : String :=
  if b.data.head? = some ('/' : Char) then b else a ++ "/" ++ b

/-- The text of the `IsADirectoryError` raised when opening a directory for
reading. -/
def isADirectoryError_message (p : String) : String :=
  "[Errno 21] Is a directory: " ++ "\x27" ++ p ++ "\x27"

/-- The text of the decoding exception raised when the GBK fallback read also
fails; its exact contents are immaterial to the development. -/
def gbk_failure_message : String := "\x27gbk\x27 codec cannot decode byte"

/-- The rule of 80 equals signs written after the header. -/
def eq_rule_80 : String := String.mk (List.replicate 80 (Char.ofNat 61))

/-- The rule of 50 equals signs printed around the final summary. -/
def eq_rule_50 : String := String.mk (List.replicate 50 (Char.ofNat 61))

/-- Which of the three counters an iteration of the merge loop increments. -/
inductive Outcome where
  | success
  | missingO
  | errorO
deriving DecidableEq

/-- What one iteration of the merge loop produces: the text appended to the
output file (if any), the counter it increments, and its console messages. -/
structure EntryResult where
  sect : Option String
  outcome : Outcome
  prints : List String
deriving DecidableEq

/-- Placeholder section written for a manifest entry whose file is absent
(source lines 74-76). -/
def missing_section (filename : String) : String :=
  "\n\n---\n\n" ++ "## ⚠️ " ++ filename ++ "\n\n" ++ "*此文件缺失*\n\n"

/-- Content section: rule, provenance comment, stripped content, blank lines
(source lines 86-91 and 101-104). -/
def content_section (index : Nat) (filename content : String) : String :=
  "\n\n---\n\n" ++ "<!-- 第 " ++ toString index ++ " 篇 | 来源: " ++ filename
    ++ " -->\n\n" ++ pyStrip content ++ "\n\n"

/-- Error placeholder section written by the generic read-failure handler
(source lines 113-115). -/
def error_section (filename msg : String) : String :=
  "\n\n---\n\n" ++ "## ❌ " ++ filename ++ "\n\n" ++ "*读取失败: " ++ msg ++ "*\n\n"

/-- One iteration of the merge loop for a string filename
(source lines 66-116).  The early `os.path.exists` check, the UTF-8 read,
the GBK retry and the generic exception handler select the branch. -/
def entryStr (fs : Fs) (total index : Nat) (filename : String) : EntryResult :=
  let file_path := osPath_join "content" filename
  let progress := "[" ++ toString index ++ "/" ++ toString total ++ "] 处理: " ++ filename
  match fs file_path with
  | none =>
      { sect := some (missing_section filename)
        outcome := .missingO
        prints := [progress, "    ⚠️  文件不存在，跳过"] }
  | some (.file (.utf8 content)) =>
      { sect := some (content_section index filename content)
        outcome := .success
        prints := [progress, "    ✅ 成功"] }
  | some (.file (.gbkOnly content)) =>
      { sect := some (content_section index filename content)
        outcome := .success
        prints := [progress, "    ❌ 编码错误，尝试其他编码", "    ✅ 成功 (使用 GBK 编码)"] }
  | some (.file .undecodable) =>
      { sect := none
        outcome := .errorO
        prints := [progress, "    ❌ 编码错误，尝试其他编码",
                   "    ❌ 读取失败: " ++ gbk_failure_message] }
  | some (.file (.unreadable msg)) =>
      { sect := some (error_section filename msg)
        outcome := .errorO
        prints := [progress, "    ❌ 读取失败: " ++ msg] }
  | some .dir =>
      { sect := some (error_section filename (isADirectoryError_message file_path))
        outcome := .errorO
        prints := [progress, "    ❌ 读取失败: " ++ isADirectoryError_message file_path] }

/-- One iteration of the merge loop for an arbitrary manifest entry:
`os.path.join` raises `TypeError` on a non-string entry. -/
def processEntry (fs : Fs) (total index : Nat) (v : JValue) : Except PyExc EntryResult :=
  match v with
  | .jstr filename => .ok (entryStr fs total index filename)
  | _ => .error .typeError

/-- The merge loop over the manifest entries, 1-based indexing
(`enumerate(render_order, 1)`). -/
def runEntries (fs : Fs) (total : Nat) : Nat → List JValue → Except PyExc (List EntryResult)
  | _, [] => .ok []
  | index, v :: vs =>
    match processEntry fs total index v with
    | .error e => .error e
    | .ok r =>
      match runEntries fs total (index + 1) vs with
      | .error e => .error e
      | .ok rs => .ok (r :: rs)

/-- The merge loop over a list of string filenames. -/
def runStr (fs : Fs) (total : Nat) : Nat → List String → List EntryResult
  | _, [] => []
  | index, f :: rest => entryStr fs total index f :: runStr fs total (index + 1) rest

/-- How many loop iterations incremented the given counter. -/
def countOutcome (o : Outcome) (rs : List EntryResult) : Nat :=
  rs.countP (fun r => decide (r.outcome = o))

/-- The header block written at source lines 49-58, for a dict `siteInfo`. -/
def header_string (kvs : List (String × JValue)) (now : String) : String :=
  "# " ++ pyStr ((lookupField kvs "title").getD (.jstr "Untitled")) ++ "\n\n" ++
  "**" ++ pyStr ((lookupField kvs "subtitle").getD (.jstr "")) ++ "**\n\n" ++
  (if truthy ((lookupField kvs "other").getD .jnull) then
    "*" ++ pyStr ((lookupField kvs "other").getD .jnull) ++ "*\n\n" else "") ++
  "作者: " ++ pyStr ((lookupField kvs "author").getD (.jstr "Unknown")) ++ "\n\n" ++
  "网站: " ++ pyStr ((lookupField kvs "url").getD (.jstr "")) ++ "\n\n" ++
  "生成时间: " ++ now ++ "\n\n" ++
  eq_rule_80 ++ "\n\n"

/-- The header writes of source lines 49-58: five `site_info.get` calls (each
raising `AttributeError` on a non-dict `site_info`) and the concatenated
header text. -/
def headerOf (site_info : JValue) (now : String) : Except PyExc String :=
  match jGet site_info "title" (.jstr "Untitled") with
  | .error e => .error e
  | .ok title =>
    match jGet site_info "subtitle" (.jstr "") with
    | .error e => .error e
    | .ok subtitle =>
      match jGet site_info "other" .jnull with
      | .error e => .error e
      | .ok other =>
        match jGet site_info "author" (.jstr "Unknown") with
        | .error e => .error e
        | .ok author =>
          match jGet site_info "url" (.jstr "") with
          | .error e => .error e
          | .ok url => .ok (
              "# " ++ pyStr title ++ "\n\n" ++
              "**" ++ pyStr subtitle ++ "**\n\n" ++
              (if truthy other then "*" ++ pyStr other ++ "*\n\n" else "") ++
              "作者: " ++ pyStr author ++ "\n\n" ++
              "网站: " ++ pyStr url ++ "\n\n" ++
              "生成时间: " ++ now ++ "\n\n" ++
              eq_rule_80 ++ "\n\n")

/-- The summary printed after the loop (source lines 120-128). -/
def summary_prints (total success missing errors : Nat) : List String :=
  ["\n" ++ eq_rule_50,
   "✨ 合并完成!",
   "📊 统计信息:",
   "   - 总计: " ++ toString total ++ " 个文件",
   "   - ✅ 成功: " ++ toString success ++ " 个",
   "   - ⚠️  缺失: " ++ toString missing ++ " 个",
   "   - ❌ 错误: " ++ toString errors ++ " 个",
   "📄 输出文件: merged_output.md",
   eq_rule_50]

/-- The observable result of a run that returned normally: the output file
content (if one was created), the three counters, and the console lines. -/
structure MergeResult where
  output : Option String
  successCount : Nat
  missingCount : Nat
  errorCount : Nat
  stdout : List String
deriving DecidableEq

/-- Assembling the result of a run that reached the merge loop. -/
def assemble (n : Nat) (header : String) (rs : List EntryResult) : MergeResult :=
  { output := some (header ++ String.join (rs.filterMap EntryResult.sect))
    successCount := countOutcome .success rs
    missingCount := countOutcome .missingO rs
    errorCount := countOutcome .errorO rs
    stdout := ("开始合并 " ++ toString n ++ " 个文件...\n") ::
      ((rs.map EntryResult.prints).flatten ++
        summary_prints n (countOutcome .success rs) (countOutcome .missingO rs)
          (countOutcome .errorO rs)) }

/-- The whole script (source lines 13-128).  Parameters: the filesystem, the
result of loading `config.json`, and the formatted wall-clock timestamp.
A `.ok` result models a normal return (process exit status 0); a `.error`
result models an exception escaping `merge_markdown_files`. -/
def merge_markdown_files (fs : Fs) (config_load : LoadResult) (now : String) :
    Except PyExc MergeResult :=
  if (fs "content").isNone then
    .ok ⟨none, 0, 0, 0, ["错误: 找不到 content 目录"]⟩
  else
    match config_load with
    | .notFound => .ok ⟨none, 0, 0, 0, ["错误: 找不到配置文件 config.json"]⟩
    | .badJson e => .ok ⟨none, 0, 0, 0, ["错误: 配置文件格式不正确 - " ++ e]⟩
    | .ok config =>
      match jGet config "chapters" (.jarr []) with
      | .error exc => .error exc
      | .ok render_order =>
        if truthy render_order = false then
          .ok ⟨none, 0, 0, 0, ["警告: chapters 为空"]⟩
        else
          match jGet config "siteInfo" (.jobj []) with
          | .error exc => .error exc
          | .ok site_info =>
            match pyLen render_order with
            | .error exc => .error exc
            | .ok n =>
              match headerOf site_info now with
              | .error exc => .error exc
              | .ok header =>
                match pyIter render_order with
                | .error exc => .error exc
                | .ok items =>
                  match runEntries fs n 1 items with
                  | .error exc => .error exc
                  | .ok rs => .ok (assemble n header rs)

/-- Whether a JSON value is a string. -/
def isStrB : JValue → Bool
  | .jstr _ => true
  | _ => false

/-- A configuration under which the script cannot raise: a JSON object whose
`chapters` value, when present, is a list of strings and whose `siteInfo`
value, when present, is an object. -/
def goodConfigB : JValue → Bool
  | .jobj kvs =>
      (match lookupField kvs "chapters" with
       | none => true
       | some (.jarr xs) => xs.all isStrB
       | some _ => false)
      &&
      (match lookupField kvs "siteInfo" with
       | none => true
       | some (.jobj _) => true
       | some _ => false)
  | _ => false

/-- Whether a manifest filename fails both the UTF-8 read and the GBK retry;
such an entry contributes no section to the output. -/
def doubleFailB (fs : Fs) (f : String) : Bool :=
  decide (fs (osPath_join "content" f) = some (.file .undecodable))

/-- The result of a run that got past setup, as a function of the filesystem,
the `siteInfo` fields, the manifest filenames and the timestamp. -/
def merged_result (fs : Fs) (skvs : List (String × JValue)) (names : List String)
    (now : String) : MergeResult :=
  assemble names.length (header_string skvs now) (runStr fs names.length 1 names)

/-- The content of `merged_output.md` after a run: opening with mode `w`
truncates, so a created output replaces any prior content entirely; a run
that never opens the output leaves the prior content in place. -/
def file_after_run (prior : Option String) (r : MergeResult) : Option String :=
  match r.output with
  | some o => some o
  | none => prior

/-- Whether the process exits with status 0: a normal return does, an escaped
exception does not. -/
def exits_normally : Except PyExc MergeResult → Bool
  | .ok _ => true
  | .error _ => false

/-- The output file produced by a run, `none` when the run raised or aborted
before creating it. -/
def run_output : Except PyExc MergeResult → Option String
  | .ok r => r.output
  | .error _ => none

/-- The final error counter of a normally returning run. -/
def run_errorCount : Except PyExc MergeResult → Nat
  | .ok r => r.errorCount
  | .error _ => 0

/-- The final success counter of a normally returning run. -/
def run_successCount : Except PyExc MergeResult → Nat
  | .ok r => r.successCount
  | .error _ => 0

/-- Whether the first list occurs at the head of the second. -/
def isPrefixL : List Char → List Char → Bool
  | [], _ => true
  | _ :: _, [] => false
  | a :: as, b :: bs => a == b && isPrefixL as bs

/-- Whether the needle occurs somewhere in the haystack. -/
def containsL (needle : List Char) : List Char → Bool
  | [] => needle.isEmpty
  | b :: bs => isPrefixL needle (b :: bs) || containsL needle bs

/-- Substring occurrence on strings, used to examine concrete outputs. -/
def containsSub (hay nee : String) : Bool := containsL nee.data hay.data

/-- Fixture: a filesystem with an empty `content` directory and nothing else. -/
def demo_fs : Fs := fun p => if p = "content" then some .dir else none

/-- Fixture: a configuration whose manifest is the single entry `a.md`. -/
def demo_cfg : JValue := .jobj [("chapters", .jarr [.jstr "a.md"])]

/-- Fixture: `content` exists and `content/bad.md` decodes neither as UTF-8
nor as GBK. -/
def fs_undecodable : Fs := fun p =>
  if p = "content" then some .dir
  else if p = "content/bad.md" then some (.file .undecodable) else none

/-- Fixture: a configuration whose manifest is the single entry `bad.md`. -/
def cfg_bad : JValue := .jobj [("chapters", .jarr [.jstr "bad.md"])]

/-- Fixture: `content/a.md` fails the UTF-8 read and decodes under GBK to a
string with leading and trailing whitespace. -/
def fs_gbk : Fs := fun p =>
  if p = "content" then some .dir
  else if p = "content/a.md" then some (.file (.gbkOnly " A ")) else none

/-- Fixture: a filesystem where the path `content` is a regular file and no
other path exists. -/
def fs_content_file : Fs := fun p =>
  if p = "content" then some (.file (.utf8 "x")) else none

/-- Fixture: `content/sub` exists but is a directory, so reading it raises. -/
def fs_subdir : Fs := fun p =>
  if p = "content" then some .dir
  else if p = "content/sub" then some .dir else none

/-- Fixture: a configuration whose manifest is the single entry `sub`. -/
def cfg_sub : JValue := .jobj [("chapters", .jarr [.jstr "sub"])]

/-- On a manifest of string filenames the loop never raises and produces
exactly the entry results given by `runStr`. -/
theorem runEntries_map_jstr (fs : Fs) (total : Nat) (idx : Nat) (names : List String) :
    runEntries fs total idx (names.map JValue.jstr) = .ok (runStr fs total idx names) := by
  induction names generalizing idx with
  | nil => rfl
  | cons a as ih => simp [runEntries, runStr, processEntry, ih]

/-- The loop produces one entry result per manifest entry. -/
theorem runStr_length (fs : Fs) (total idx : Nat) (names : List String) :
    (runStr fs total idx names).length = names.length := by
  induction names generalizing idx with
  | nil => rfl
  | cons a as ih => simp [runStr, ih]

/-- Splitting the loop around a concatenation of manifests. -/
theorem runStr_append (fs : Fs) (total : Nat) (idx : Nat) (l1 l2 : List String) :
    runStr fs total idx (l1 ++ l2) =
      runStr fs total idx l1 ++ runStr fs total (idx + l1.length) l2 := by
  induction l1 generalizing idx with
  | nil => simp [runStr]
  | cons a as ih =>
    have harith : idx + 1 + as.length = idx + (as.length + 1) := by omega
    simp only [List.cons_append, runStr, ih, List.length_cons, harith]
    rw [show as.append l2 = as ++ l2 from rfl, ih, harith]

/-- Counting over a concatenation of entry results. -/
theorem countOutcome_append (o : Outcome) (rs1 rs2 : List EntryResult) :
    countOutcome o (rs1 ++ rs2) = countOutcome o rs1 + countOutcome o rs2 :=
  List.countP_append _ _ _

/-- Counting over one more entry result. -/
theorem countOutcome_cons (o : Outcome) (r : EntryResult) (rs : List EntryResult) :
    countOutcome o (r :: rs) = countOutcome o rs + (if r.outcome = o then 1 else 0) := by
  simp [countOutcome, List.countP_cons]

/-- Every iteration increments exactly one of the three counters, so the
three counts sum to the number of entries. -/
theorem countOutcome_total (rs : List EntryResult) :
    countOutcome .success rs + countOutcome .missingO rs + countOutcome .errorO rs
      = rs.length := by
  induction rs with
  | nil => rfl
  | cons r rs ih =>
    cases h : r.outcome <;>
      simp [countOutcome_cons, h, List.length_cons] <;> omega

/-- The joined path of a manifest entry is never the `content` path itself. -/
theorem osPath_join_ne_content (f : String) : osPath_join "content" f ≠ "content" := by
  unfold osPath_join
  by_cases h : f.data.head? = some ('/' : Char)
  · rw [if_pos h]
    intro hf
    subst hf
    exact absurd h (by decide)
  · rw [if_neg h]
    intro he
    have hlen := congrArg String.length he
    rw [String.length_append] at hlen
    have h8 : ("content" ++ "/").length = 8 := rfl
    have h7 : ("content").length = 7 := rfl
    rw [h8, h7] at hlen
    omega

/-- The header writes succeed on a dict `siteInfo` and produce the header
string. -/
theorem headerOf_jobj (kvs : List (String × JValue)) (now : String) :
    headerOf (.jobj kvs) now = .ok (header_string kvs now) := rfl

/-- The sections written plus the entries that wrote none account for every
loop iteration. -/
theorem filterMap_sect_length (rs : List EntryResult) :
    (rs.filterMap EntryResult.sect).length + rs.countP (fun e => e.sect.isNone)
      = rs.length := by
  induction rs with
  | nil => rfl
  | cons r rs ih =>
    cases h : r.sect <;>
      simp [List.filterMap_cons, List.countP_cons, h] <;> omega

/-- An iteration writes no section exactly when its file decodes neither as
UTF-8 nor as GBK. -/
theorem entryStr_sect_isNone (fs : Fs) (total idx : Nat) (f : String) :
    (entryStr fs total idx f).sect.isNone = doubleFailB fs f := by
  cases hn : fs (osPath_join "content" f) with
  | none => simp [entryStr, hn, doubleFailB]
  | some nd =>
    cases nd with
    | dir => simp [entryStr, hn, doubleFailB]
    | file fn => cases fn <;> simp [entryStr, hn, doubleFailB]

/-- Which iterations write no section, entry by entry in manifest order. -/
theorem runStr_sect_isNone (fs : Fs) (total : Nat) (idx : Nat) (names : List String) :
    (runStr fs total idx names).map (fun e => e.sect.isNone) =
      names.map (fun f => doubleFailB fs f) := by
  induction names generalizing idx with
  | nil => rfl
  | cons a as ih =>
    simp only [runStr, List.map_cons, ih, entryStr_sect_isNone]

/-- A list of JSON values that are all strings is the image of a list of
strings. -/
theorem all_isStr_exists (xs : List JValue) (h : xs.all isStrB = true) :
    ∃ names : List String, xs = names.map JValue.jstr := by
  induction xs with
  | nil => exact ⟨[], rfl⟩
  | cons v vs ih =>
    rw [List.all_cons, Bool.and_eq_true] at h
    obtain ⟨hv, hvs⟩ := h
    obtain ⟨names, hn⟩ := ih hvs
    cases v with
    | jstr s => exact ⟨s :: names, by simp [hn]⟩
    | jnull => simp [isStrB] at hv
    | jbool b => simp [isStrB] at hv
    | jnum n => simp [isStrB] at hv
    | jarr es => simp [isStrB] at hv
    | jobj fields => simp [isStrB] at hv

/-- Evaluation of the script on a run that gets past setup: the `content`
path exists, the configuration is an object whose manifest is a non-empty
list of strings, and `siteInfo` defaults to or is an object. -/
theorem merge_eval (fs : Fs) (kvs skvs : List (String × JValue)) (names : List String)
    (now : String)
    (hc : (fs "content").isSome = true)
    (hchap : lookupField kvs "chapters" = some (.jarr (names.map JValue.jstr)))
    (hne : names ≠ [])
    (hsi : (lookupField kvs "siteInfo").getD (.jobj []) = .jobj skvs) :
    merge_markdown_files fs (.ok (.jobj kvs)) now
      = .ok (merged_result fs skvs names now) := by
  obtain ⟨nd, hnd⟩ := Option.isSome_iff_exists.mp hc
  have hmapne : (names.map JValue.jstr).isEmpty = false := by
    cases names with
    | nil => exact absurd rfl hne
    | cons a as => rfl
  simp [merge_markdown_files, hnd, jGet, hchap, hsi, truthy, hmapne, pyLen,
    pyIter, runEntries_map_jstr, merged_result, headerOf_jobj]

/-- Inserting one entry into the count of a run. -/
theorem countOutcome_insert (o : Outcome) (rs1 rs2 : List EntryResult) (r : EntryResult) :
    countOutcome o (rs1 ++ r :: rs2)
      = countOutcome o (rs1 ++ rs2) + (if r.outcome = o then 1 else 0) := by
  simp only [countOutcome_append, countOutcome_cons]
  omega

/-- A run past setup on a manifest split around one entry: the loop results
decompose around that entry, which is processed at 1-based position
`1 + pre.length`. -/
theorem merge_insert (fs : Fs) (kvs skvs : List (String × JValue))
    (pre post : List String) (f : String) (now : String)
    (hc : (fs "content").isSome = true)
    (hchap : lookupField kvs "chapters"
      = some (.jarr ((pre ++ f :: post).map JValue.jstr)))
    (hsi : (lookupField kvs "siteInfo").getD (.jobj []) = .jobj skvs) :
    merge_markdown_files fs (.ok (.jobj kvs)) now
      = .ok (merged_result fs skvs (pre ++ f :: post) now)
    ∧ runStr fs (pre ++ f :: post).length 1 (pre ++ f :: post)
      = runStr fs (pre ++ f :: post).length 1 pre
        ++ entryStr fs (pre ++ f :: post).length (1 + pre.length) f
        :: runStr fs (pre ++ f :: post).length (1 + pre.length + 1) post := by
  constructor
  · exact merge_eval fs kvs skvs (pre ++ f :: post) now hc hchap (by simp) hsi
  · rw [runStr_append]
    rfl

/-- A manifest entry whose file is absent yields the missing placeholder. -/
theorem entryStr_missing (fs : Fs) (total idx : Nat) (f : String)
    (h : fs (osPath_join "content" f) = none) :
    entryStr fs total idx f =
      { sect := some (missing_section f)
        outcome := .missingO
        prints := ["[" ++ toString idx ++ "/" ++ toString total ++ "] 处理: " ++ f,
                   "    ⚠️  文件不存在，跳过"] } := by
  simp [entryStr, h]

/-- When no joined path exists, every entry yields its missing placeholder. -/
theorem runStr_missing_map_sect (fs : Fs) (total : Nat)
    (hnone : ∀ f : String, fs (osPath_join "content" f) = none) :
    ∀ (idx : Nat) (names : List String),
      (runStr fs total idx names).map EntryResult.sect
        = names.map (fun f => some (missing_section f)) := by
  intro idx names
  induction names generalizing idx with
  | nil => rfl
  | cons a as ih =>
    simp only [runStr, List.map_cons, ih, entryStr_missing fs total idx a (hnone a)]

/-- When no joined path exists, the counters record every entry as missing. -/
theorem runStr_missing_counts (fs : Fs) (total : Nat)
    (hnone : ∀ f : String, fs (osPath_join "content" f) = none) :
    ∀ (idx : Nat) (names : List String),
      countOutcome .missingO (runStr fs total idx names) = names.length
      ∧ countOutcome .success (runStr fs total idx names) = 0
      ∧ countOutcome .errorO (runStr fs total idx names) = 0 := by
  intro idx names
  induction names generalizing idx with
  | nil => exact ⟨rfl, rfl, rfl⟩
  | cons a as ih =>
    obtain ⟨h1, h2, h3⟩ := ih (idx + 1)
    rw [runStr, entryStr_missing fs total idx a (hnone a)]
    refine ⟨?_, ?_, ?_⟩ <;> simp [countOutcome_cons, h1, h2, h3]

/-- Claim C1, counterexample: on a one-entry manifest whose file decodes
neither as UTF-8 nor as GBK, the run gets past setup and returns normally,
the error counter records the entry, yet the output file contains no section
marker at all (not even a horizontal rule), refuting the claimed exactly-N
sections. -/
theorem C1_counterexample :
    (run_output (merge_markdown_files fs_undecodable (.ok cfg_bad) "T")).map
        (fun s => containsSub s "---") = some false
    ∧ run_errorCount (merge_markdown_files fs_undecodable (.ok cfg_bad) "T") = 1 :=
  ⟨rfl, rfl⟩

/-- Claim C1 (amended): for a manifest of N string filenames, after the run
gets past setup the output is the header followed by the per-entry sections
in manifest order; every entry contributes exactly one section except the
entries whose file fails both the UTF-8 and the GBK decode, which contribute
none, so the output carries exactly N minus the number of such entries
section markers. -/
theorem C1_theorem (fs : Fs) (kvs skvs : List (String × JValue))
    (names : List String) (now : String)
    (hc : (fs "content").isSome = true)
    (hchap : lookupField kvs "chapters" = some (.jarr (names.map JValue.jstr)))
    (hne : names ≠ [])
    (hsi : (lookupField kvs "siteInfo").getD (.jobj []) = .jobj skvs) :
    merge_markdown_files fs (.ok (.jobj kvs)) now
      = .ok (merged_result fs skvs names now)
    ∧ (merged_result fs skvs names now).output
      = some (header_string skvs now
          ++ String.join ((runStr fs names.length 1 names).filterMap EntryResult.sect))
    ∧ (runStr fs names.length 1 names).length = names.length
    ∧ (runStr fs names.length 1 names).map (fun e => e.sect.isNone)
      = names.map (fun f => doubleFailB fs f)
    ∧ ((runStr fs names.length 1 names).filterMap EntryResult.sect).length
        + names.countP (fun f => doubleFailB fs f) = names.length := by
  refine ⟨merge_eval fs kvs skvs names now hc hchap hne hsi, rfl,
    runStr_length fs names.length 1 names, runStr_sect_isNone fs names.length 1 names, ?_⟩
  have h1 := filterMap_sect_length (runStr fs names.length 1 names)
  have hm := runStr_sect_isNone fs names.length 1 names
  have h2 := congrArg (List.countP (fun b => b)) hm
  rw [List.countP_map, List.countP_map] at h2
  rw [runStr_length] at h1
  have h3 : (runStr fs names.length 1 names).countP (fun e => e.sect.isNone)
      = names.countP (fun f => doubleFailB fs f) := h2
  omega

/-- Claim C1, witness: the amended statement at a concrete one-entry manifest
whose file fails both decodings. -/
theorem C1_witness :
    merge_markdown_files fs_undecodable (.ok (.jobj [("chapters", .jarr [.jstr "bad.md"])])) "T"
      = .ok (merged_result fs_undecodable [] ["bad.md"] "T")
    ∧ (merged_result fs_undecodable [] ["bad.md"] "T").output
      = some (header_string [] "T"
          ++ String.join ((runStr fs_undecodable 1 1 ["bad.md"]).filterMap EntryResult.sect))
    ∧ (runStr fs_undecodable 1 1 ["bad.md"]).length = (["bad.md"] : List String).length
    ∧ (runStr fs_undecodable 1 1 ["bad.md"]).map (fun e => e.sect.isNone)
      = (["bad.md"] : List String).map (fun f => doubleFailB fs_undecodable f)
    ∧ ((runStr fs_undecodable 1 1 ["bad.md"]).filterMap EntryResult.sect).length
        + (["bad.md"] : List String).countP (fun f => doubleFailB fs_undecodable f)
      = (["bad.md"] : List String).length :=
  C1_theorem fs_undecodable [("chapters", .jarr [.jstr "bad.md"])] [] ["bad.md"] "T"
    rfl rfl (by simp) rfl

/-- Claim C2, counterexample: with the `content` path present, a valid JSON
configuration whose top-level value is a list (not an object) makes the call
to the dict method raise an `AttributeError` that escapes the top level, so
the process does not exit with status 0 on every configuration contents. -/
theorem C2_counterexample :
    merge_markdown_files demo_fs (.ok (.jarr [])) "T" = .error .attributeError :=
  rfl

/-- Claim C2 (amended): when the parsed configuration is a JSON object whose
`chapters` value, if present, is a list of strings and whose `siteInfo`
value, if present, is an object, no exception escapes the top level for any
filesystem state or load outcome — per-file errors are caught and recorded —
and the process exits with status 0 in all paths including reported error
conditions. -/
theorem C2_theorem (fs : Fs) (load : LoadResult) (now : String)
    (h : ∀ c, load = .ok c → goodConfigB c = true) :
    exits_normally (merge_markdown_files fs load now) = true := by
  cases hfc : fs "content" with
  | none => simp [merge_markdown_files, hfc, exits_normally]
  | some nd =>
    cases load with
    | notFound => simp [merge_markdown_files, hfc, exits_normally]
    | badJson e => simp [merge_markdown_files, hfc, exits_normally]
    | ok c =>
      have hg := h c rfl
      cases c with
      | jnull => simp [goodConfigB] at hg
      | jbool b => simp [goodConfigB] at hg
      | jnum n => simp [goodConfigB] at hg
      | jstr s => simp [goodConfigB] at hg
      | jarr es => simp [goodConfigB] at hg
      | jobj kvs =>
        rw [goodConfigB, Bool.and_eq_true] at hg
        obtain ⟨hgc, hgs⟩ := hg
        have hsi : ∃ skvs, (lookupField kvs "siteInfo").getD (.jobj []) = .jobj skvs := by
          cases hs : lookupField kvs "siteInfo" with
          | none => exact ⟨[], rfl⟩
          | some sv =>
            rw [hs] at hgs
            cases sv with
            | jobj skvs => exact ⟨skvs, rfl⟩
            | jnull => simp at hgs
            | jbool b => simp at hgs
            | jnum n => simp at hgs
            | jstr s => simp at hgs
            | jarr es => simp at hgs
        obtain ⟨skvs, hsi⟩ := hsi
        cases hch : lookupField kvs "chapters" with
        | none => simp [merge_markdown_files, hfc, jGet, hch, truthy, exits_normally]
        | some v =>
          rw [hch] at hgc
          cases v with
          | jnull => simp at hgc
          | jbool b => simp at hgc
          | jnum n => simp at hgc
          | jstr s => simp at hgc
          | jobj fields => simp at hgc
          | jarr xs =>
            obtain ⟨names, rfl⟩ := all_isStr_exists xs (by simpa using hgc)
            cases names with
            | nil => simp [merge_markdown_files, hfc, jGet, hch, truthy, exits_normally]
            | cons a as =>
              rw [merge_eval fs kvs skvs (a :: as) now (by simp [hfc]) hch
                (List.cons_ne_nil a as) hsi]
              rfl

/-- Claim C2, witness: the amended statement at a concrete well-formed
configuration over an empty content directory. -/
theorem C2_witness :
    exits_normally (merge_markdown_files demo_fs (.ok demo_cfg) "T") = true :=
  C2_theorem demo_fs (.ok demo_cfg) "T"
    (fun c hc => by injection hc with h; rw [← h]; decide)

set_option maxRecDepth 4096 in
/-- Claim C3, counterexample: `content/a.md` fails the UTF-8 read and decodes
under GBK to the three-character string of a space, `A` and a space; the run
succeeds and counts the file, yet the decoded content does not occur anywhere
in the output, because the script writes it stripped of surrounding
whitespace — not verbatim. -/
theorem C3_counterexample :
    (run_output (merge_markdown_files fs_gbk (.ok demo_cfg) "T")).map
        (fun s => containsSub s " A ") = some false
    ∧ run_successCount (merge_markdown_files fs_gbk (.ok demo_cfg) "T") = 1 :=
  ⟨rfl, rfl⟩

/-- Claim C3 (amended): for every manifest entry whose file fails UTF-8
decoding but decodes under the GBK fallback, the decoded content is written
into its section stripped of leading and trailing whitespace (otherwise
unchanged), and the success counter is incremented by exactly 1 for that
entry. -/
theorem C3_theorem (fs : Fs) (kvs skvs : List (String × JValue))
    (pre post : List String) (f c : String) (now : String)
    (hc : (fs "content").isSome = true)
    (hchap : lookupField kvs "chapters"
      = some (.jarr ((pre ++ f :: post).map JValue.jstr)))
    (hsi : (lookupField kvs "siteInfo").getD (.jobj []) = .jobj skvs)
    (hgbk : fs (osPath_join "content" f) = some (.file (.gbkOnly c))) :
    merge_markdown_files fs (.ok (.jobj kvs)) now
      = .ok (merged_result fs skvs (pre ++ f :: post) now)
    ∧ runStr fs (pre ++ f :: post).length 1 (pre ++ f :: post)
      = runStr fs (pre ++ f :: post).length 1 pre
        ++ entryStr fs (pre ++ f :: post).length (1 + pre.length) f
        :: runStr fs (pre ++ f :: post).length (1 + pre.length + 1) post
    ∧ entryStr fs (pre ++ f :: post).length (1 + pre.length) f
      = { sect := some (content_section (1 + pre.length) f c)
          outcome := .success
          prints := ["[" ++ toString (1 + pre.length) ++ "/"
                       ++ toString (pre ++ f :: post).length ++ "] 处理: " ++ f,
                     "    ❌ 编码错误，尝试其他编码", "    ✅ 成功 (使用 GBK 编码)"] }
    ∧ countOutcome .success (runStr fs (pre ++ f :: post).length 1 (pre ++ f :: post))
      = countOutcome .success
          (runStr fs (pre ++ f :: post).length 1 pre
            ++ runStr fs (pre ++ f :: post).length (1 + pre.length + 1) post) + 1 := by
  obtain ⟨h1, h2⟩ := merge_insert fs kvs skvs pre post f now hc hchap hsi
  have he : entryStr fs (pre ++ f :: post).length (1 + pre.length) f
      = { sect := some (content_section (1 + pre.length) f c)
          outcome := .success
          prints := ["[" ++ toString (1 + pre.length) ++ "/"
                       ++ toString (pre ++ f :: post).length ++ "] 处理: " ++ f,
                     "    ❌ 编码错误，尝试其他编码", "    ✅ 成功 (使用 GBK 编码)"] } := by
    simp [entryStr, hgbk]
  refine ⟨h1, h2, he, ?_⟩
  rw [h2, countOutcome_insert, he]
  simp

/-- Claim C3, witness: the amended statement on a concrete GBK-only file with
whitespace-padded content. -/
theorem C3_witness :
    merge_markdown_files fs_gbk (.ok (.jobj [("chapters", .jarr [.jstr "a.md"])])) "T"
      = .ok (merged_result fs_gbk [] ["a.md"] "T")
    ∧ runStr fs_gbk 1 1 ["a.md"]
      = runStr fs_gbk 1 1 [] ++ entryStr fs_gbk 1 1 "a.md" :: runStr fs_gbk 1 2 []
    ∧ entryStr fs_gbk 1 1 "a.md"
      = { sect := some (content_section 1 "a.md" " A ")
          outcome := .success
          prints := ["[" ++ toString 1 ++ "/" ++ toString 1 ++ "] 处理: " ++ "a.md",
                     "    ❌ 编码错误，尝试其他编码", "    ✅ 成功 (使用 GBK 编码)"] }
    ∧ countOutcome .success (runStr fs_gbk 1 1 ["a.md"])
      = countOutcome .success (runStr fs_gbk 1 1 [] ++ runStr fs_gbk 1 2 []) + 1 :=
  C3_theorem fs_gbk [("chapters", .jarr [.jstr "a.md"])] [] [] [] "a.md" " A " "T"
    rfl rfl rfl rfl

/-- Claim C4 (confirmed): the output file is opened with truncating write
mode, so whenever a run creates the output its final content is a function of
that run's inputs alone, independent of whatever the file held before; and
running again with identical inputs leaves the file unchanged (overwrite, not
append). -/
theorem C4_theorem (fs : Fs) (load : LoadResult) (now : String)
    (prior : Option String) (r : MergeResult) (o : String)
    (h : merge_markdown_files fs load now = .ok r)
    (ho : r.output = some o) :
    merge_markdown_files fs load now = .ok r
    ∧ file_after_run prior r = some o
    ∧ file_after_run (file_after_run prior r) r = file_after_run prior r := by
  refine ⟨h, ?_, ?_⟩ <;> simp [file_after_run, ho]

/-- Claim C4, witness: a concrete run over stale prior output content. -/
theorem C4_witness :
    merge_markdown_files demo_fs (.ok demo_cfg) "T"
      = .ok (merged_result demo_fs [] ["a.md"] "T")
    ∧ file_after_run (some "stale") (merged_result demo_fs [] ["a.md"] "T")
      = some (header_string [] "T"
          ++ String.join ((runStr demo_fs 1 1 ["a.md"]).filterMap EntryResult.sect))
    ∧ file_after_run (file_after_run (some "stale") (merged_result demo_fs [] ["a.md"] "T"))
        (merged_result demo_fs [] ["a.md"] "T")
      = file_after_run (some "stale") (merged_result demo_fs [] ["a.md"] "T") :=
  C4_theorem demo_fs (.ok demo_cfg) "T" (some "stale")
    (merged_result demo_fs [] ["a.md"] "T")
    (header_string [] "T"
      ++ String.join ((runStr demo_fs 1 1 ["a.md"]).filterMap EntryResult.sect))
    (merge_eval demo_fs [("chapters", .jarr [.jstr "a.md"])] [] ["a.md"] "T"
      rfl rfl (by simp) rfl)
    rfl

/-- Claim C5 (confirmed): when the `chapters` list extracted from the
configuration is empty (absent key or empty list), the run prints the warning
and returns with no output file created or modified. -/
theorem C5_theorem (fs : Fs) (kvs : List (String × JValue)) (now : String)
    (hc : (fs "content").isSome = true)
    (hch : lookupField kvs "chapters" = none
         ∨ lookupField kvs "chapters" = some (.jarr [])) :
    merge_markdown_files fs (.ok (.jobj kvs)) now
      = .ok ⟨none, 0, 0, 0, ["警告: chapters 为空"]⟩ := by
  obtain ⟨nd, hnd⟩ := Option.isSome_iff_exists.mp hc
  rcases hch with h | h <;> simp [merge_markdown_files, hnd, jGet, h, truthy]

/-- Claim C5, witness: a configuration with no `chapters` key. -/
theorem C5_witness :
    merge_markdown_files demo_fs (.ok (.jobj [])) "T"
      = .ok ⟨none, 0, 0, 0, ["警告: chapters 为空"]⟩ :=
  C5_theorem demo_fs [] "T" rfl (Or.inl rfl)

/-- Claim C6 (confirmed): a manifest entry whose file is absent contributes
the missing placeholder section (rule, warning heading with the filename,
italic missing note) at its position, and that iteration increments the
missing counter by exactly 1 while leaving the success and error counters
unchanged. -/
theorem C6_theorem (fs : Fs) (kvs skvs : List (String × JValue))
    (pre post : List String) (f : String) (now : String)
    (hc : (fs "content").isSome = true)
    (hchap : lookupField kvs "chapters"
      = some (.jarr ((pre ++ f :: post).map JValue.jstr)))
    (hsi : (lookupField kvs "siteInfo").getD (.jobj []) = .jobj skvs)
    (hmiss : fs (osPath_join "content" f) = none) :
    merge_markdown_files fs (.ok (.jobj kvs)) now
      = .ok (merged_result fs skvs (pre ++ f :: post) now)
    ∧ runStr fs (pre ++ f :: post).length 1 (pre ++ f :: post)
      = runStr fs (pre ++ f :: post).length 1 pre
        ++ entryStr fs (pre ++ f :: post).length (1 + pre.length) f
        :: runStr fs (pre ++ f :: post).length (1 + pre.length + 1) post
    ∧ (entryStr fs (pre ++ f :: post).length (1 + pre.length) f).sect
      = some (missing_section f)
    ∧ (entryStr fs (pre ++ f :: post).length (1 + pre.length) f).outcome = .missingO
    ∧ countOutcome .missingO (runStr fs (pre ++ f :: post).length 1 (pre ++ f :: post))
      = countOutcome .missingO
          (runStr fs (pre ++ f :: post).length 1 pre
            ++ runStr fs (pre ++ f :: post).length (1 + pre.length + 1) post) + 1
    ∧ countOutcome .success (runStr fs (pre ++ f :: post).length 1 (pre ++ f :: post))
      = countOutcome .success
          (runStr fs (pre ++ f :: post).length 1 pre
            ++ runStr fs (pre ++ f :: post).length (1 + pre.length + 1) post)
    ∧ countOutcome .errorO (runStr fs (pre ++ f :: post).length 1 (pre ++ f :: post))
      = countOutcome .errorO
          (runStr fs (pre ++ f :: post).length 1 pre
            ++ runStr fs (pre ++ f :: post).length (1 + pre.length + 1) post) := by
  obtain ⟨h1, h2⟩ := merge_insert fs kvs skvs pre post f now hc hchap hsi
  have he := entryStr_missing fs (pre ++ f :: post).length (1 + pre.length) f hmiss
  refine ⟨h1, h2, by rw [he], by rw [he], ?_, ?_, ?_⟩ <;>
    rw [h2, countOutcome_insert, he] <;> simp

/-- Claim C6, witness: a concrete one-entry manifest whose file is absent. -/
theorem C6_witness :
    merge_markdown_files demo_fs (.ok (.jobj [("chapters", .jarr [.jstr "a.md"])])) "T"
      = .ok (merged_result demo_fs [] ["a.md"] "T")
    ∧ runStr demo_fs 1 1 ["a.md"]
      = runStr demo_fs 1 1 [] ++ entryStr demo_fs 1 1 "a.md" :: runStr demo_fs 1 2 []
    ∧ (entryStr demo_fs 1 1 "a.md").sect = some (missing_section "a.md")
    ∧ (entryStr demo_fs 1 1 "a.md").outcome = .missingO
    ∧ countOutcome .missingO (runStr demo_fs 1 1 ["a.md"])
      = countOutcome .missingO (runStr demo_fs 1 1 [] ++ runStr demo_fs 1 2 []) + 1
    ∧ countOutcome .success (runStr demo_fs 1 1 ["a.md"])
      = countOutcome .success (runStr demo_fs 1 1 [] ++ runStr demo_fs 1 2 [])
    ∧ countOutcome .errorO (runStr demo_fs 1 1 ["a.md"])
      = countOutcome .errorO (runStr demo_fs 1 1 [] ++ runStr demo_fs 1 2 []) :=
  C6_theorem demo_fs [("chapters", .jarr [.jstr "a.md"])] [] [] [] "a.md" "T"
    rfl rfl rfl rfl

/-- Claim C7 (confirmed): past setup the output begins with the header in
this order — title (falling back to Untitled when absent), subtitle, an
other line only when that key holds a truthy value, author (falling back to
Unknown), source URL, the generation timestamp, and a rule of 80 equals
signs — followed by the sections.  The timestamp string itself is produced
outside the model by strftime at second precision and passed through
unchanged. -/
theorem C7_theorem (fs : Fs) (kvs skvs : List (String × JValue))
    (names : List String) (now : String)
    (hc : (fs "content").isSome = true)
    (hchap : lookupField kvs "chapters" = some (.jarr (names.map JValue.jstr)))
    (hne : names ≠ [])
    (hsi : (lookupField kvs "siteInfo").getD (.jobj []) = .jobj skvs) :
    merge_markdown_files fs (.ok (.jobj kvs)) now
      = .ok (merged_result fs skvs names now)
    ∧ (merged_result fs skvs names now).output
      = some (("# " ++ pyStr ((lookupField skvs "title").getD (.jstr "Untitled")) ++ "\n\n" ++
          "**" ++ pyStr ((lookupField skvs "subtitle").getD (.jstr "")) ++ "**\n\n" ++
          (if truthy ((lookupField skvs "other").getD .jnull) then
            "*" ++ pyStr ((lookupField skvs "other").getD .jnull) ++ "*\n\n" else "") ++
          "作者: " ++ pyStr ((lookupField skvs "author").getD (.jstr "Unknown")) ++ "\n\n" ++
          "网站: " ++ pyStr ((lookupField skvs "url").getD (.jstr "")) ++ "\n\n" ++
          "生成时间: " ++ now ++ "\n\n" ++
          eq_rule_80 ++ "\n\n")
        ++ String.join ((runStr fs names.length 1 names).filterMap EntryResult.sect)) :=
  ⟨merge_eval fs kvs skvs names now hc hchap hne hsi, rfl⟩

/-- Claim C7, witness: a site with a title and a truthy other field. -/
theorem C7_witness :
    merge_markdown_files demo_fs
      (.ok (.jobj [("chapters", .jarr [.jstr "a.md"]),
        ("siteInfo", .jobj [("title", .jstr "My Book"), ("other", .jstr "notes")])]))
      "2024-01-02 03:04:05"
      = .ok (merged_result demo_fs
          [("title", .jstr "My Book"), ("other", .jstr "notes")] ["a.md"]
          "2024-01-02 03:04:05")
    ∧ (merged_result demo_fs
        [("title", .jstr "My Book"), ("other", .jstr "notes")] ["a.md"]
        "2024-01-02 03:04:05").output
      = some (("# " ++ pyStr ((lookupField
            [("title", JValue.jstr "My Book"), ("other", JValue.jstr "notes")]
            "title").getD (.jstr "Untitled")) ++ "\n\n" ++
          "**" ++ pyStr ((lookupField
            [("title", JValue.jstr "My Book"), ("other", JValue.jstr "notes")]
            "subtitle").getD (.jstr "")) ++ "**\n\n" ++
          (if truthy ((lookupField
              [("title", JValue.jstr "My Book"), ("other", JValue.jstr "notes")]
              "other").getD .jnull) then
            "*" ++ pyStr ((lookupField
              [("title", JValue.jstr "My Book"), ("other", JValue.jstr "notes")]
              "other").getD .jnull) ++ "*\n\n" else "") ++
          "作者: " ++ pyStr ((lookupField
            [("title", JValue.jstr "My Book"), ("other", JValue.jstr "notes")]
            "author").getD (.jstr "Unknown")) ++ "\n\n" ++
          "网站: " ++ pyStr ((lookupField
            [("title", JValue.jstr "My Book"), ("other", JValue.jstr "notes")]
            "url").getD (.jstr "")) ++ "\n\n" ++
          "生成时间: " ++ "2024-01-02 03:04:05" ++ "\n\n" ++
          eq_rule_80 ++ "\n\n")
        ++ String.join ((runStr demo_fs 1 1 ["a.md"]).filterMap EntryResult.sect)) :=
  C7_theorem demo_fs
    [("chapters", .jarr [.jstr "a.md"]),
      ("siteInfo", .jobj [("title", .jstr "My Book"), ("other", .jstr "notes")])]
    [("title", .jstr "My Book"), ("other", .jstr "notes")] ["a.md"]
    "2024-01-02 03:04:05" rfl rfl (by simp) rfl

/-- Claim C8 (confirmed): every loop iteration increments exactly one of the
three counters by exactly 1, so after the loop the success, missing and error
counters sum to the length of the chapters list. -/
theorem C8_theorem (fs : Fs) (kvs skvs : List (String × JValue))
    (names : List String) (now : String)
    (hc : (fs "content").isSome = true)
    (hchap : lookupField kvs "chapters" = some (.jarr (names.map JValue.jstr)))
    (hne : names ≠ [])
    (hsi : (lookupField kvs "siteInfo").getD (.jobj []) = .jobj skvs) :
    merge_markdown_files fs (.ok (.jobj kvs)) now
      = .ok (merged_result fs skvs names now)
    ∧ (merged_result fs skvs names now).successCount
        + (merged_result fs skvs names now).missingCount
        + (merged_result fs skvs names now).errorCount = names.length := by
  refine ⟨merge_eval fs kvs skvs names now hc hchap hne hsi, ?_⟩
  show countOutcome .success (runStr fs names.length 1 names)
      + countOutcome .missingO (runStr fs names.length 1 names)
      + countOutcome .errorO (runStr fs names.length 1 names) = names.length
  rw [countOutcome_total, runStr_length]

/-- Claim C8, witness: the counter sum on a concrete two-entry manifest with
one missing and one undecodable file. -/
theorem C8_witness :
    merge_markdown_files fs_undecodable
      (.ok (.jobj [("chapters", .jarr [.jstr "bad.md", .jstr "a.md"])])) "T"
      = .ok (merged_result fs_undecodable [] ["bad.md", "a.md"] "T")
    ∧ (merged_result fs_undecodable [] ["bad.md", "a.md"] "T").successCount
        + (merged_result fs_undecodable [] ["bad.md", "a.md"] "T").missingCount
        + (merged_result fs_undecodable [] ["bad.md", "a.md"] "T").errorCount
      = (["bad.md", "a.md"] : List String).length :=
  C8_theorem fs_undecodable [("chapters", .jarr [.jstr "bad.md", .jstr "a.md"])]
    [] ["bad.md", "a.md"] "T" rfl rfl (by simp) rfl

/-- Claim C9 (confirmed): the setup check only tests existence of the path
named content, so when that path is a regular file the run proceeds, creates
the output with its header, and — since no joined child path exists — records
every chapter as missing. -/
theorem C9_theorem (fs : Fs) (kvs skvs : List (String × JValue))
    (names : List String) (now : String) (fn : FileNode)
    (hcf : fs "content" = some (.file fn))
    (honly : ∀ p, p ≠ "content" → fs p = none)
    (hchap : lookupField kvs "chapters" = some (.jarr (names.map JValue.jstr)))
    (hne : names ≠ [])
    (hsi : (lookupField kvs "siteInfo").getD (.jobj []) = .jobj skvs) :
    merge_markdown_files fs (.ok (.jobj kvs)) now
      = .ok (merged_result fs skvs names now)
    ∧ (merged_result fs skvs names now).output
      = some (header_string skvs now
          ++ String.join ((runStr fs names.length 1 names).filterMap EntryResult.sect))
    ∧ (runStr fs names.length 1 names).map EntryResult.sect
      = names.map (fun g => some (missing_section g))
    ∧ (merged_result fs skvs names now).missingCount = names.length
    ∧ (merged_result fs skvs names now).successCount = 0
    ∧ (merged_result fs skvs names now).errorCount = 0 := by
  have hnone : ∀ g : String, fs (osPath_join "content" g) = none := fun g =>
    honly _ (osPath_join_ne_content g)
  obtain ⟨hm, hs, herr⟩ := runStr_missing_counts fs names.length hnone 1 names
  exact ⟨merge_eval fs kvs skvs names now (by simp [hcf]) hchap hne hsi, rfl,
    runStr_missing_map_sect fs names.length hnone 1 names, hm, hs, herr⟩

/-- Claim C9, witness: the path content is a regular file and the single
chapter is recorded as missing. -/
theorem C9_witness :
    merge_markdown_files fs_content_file
      (.ok (.jobj [("chapters", .jarr [.jstr "a.md"])])) "T"
      = .ok (merged_result fs_content_file [] ["a.md"] "T")
    ∧ (merged_result fs_content_file [] ["a.md"] "T").output
      = some (header_string [] "T"
          ++ String.join ((runStr fs_content_file 1 1 ["a.md"]).filterMap EntryResult.sect))
    ∧ (runStr fs_content_file 1 1 ["a.md"]).map EntryResult.sect
      = (["a.md"] : List String).map (fun g => some (missing_section g))
    ∧ (merged_result fs_content_file [] ["a.md"] "T").missingCount
      = (["a.md"] : List String).length
    ∧ (merged_result fs_content_file [] ["a.md"] "T").successCount = 0
    ∧ (merged_result fs_content_file [] ["a.md"] "T").errorCount = 0 :=
  C9_theorem fs_content_file [("chapters", .jarr [.jstr "a.md"])] [] ["a.md"] "T"
    (.utf8 "x") rfl (fun p hp => by simp [fs_content_file, hp]) rfl (by simp) rfl

/-- Claim C10 (confirmed): a manifest entry whose path exists but cannot be
opened and read as a text file (a directory, or any other non-decoding read
failure) yields the error placeholder section and that iteration increments
the error counter by exactly 1 — it is classified as an error, not as
missing. -/
theorem C10_theorem (fs : Fs) (kvs skvs : List (String × JValue))
    (pre post : List String) (f m : String) (now : String)
    (hc : (fs "content").isSome = true)
    (hchap : lookupField kvs "chapters"
      = some (.jarr ((pre ++ f :: post).map JValue.jstr)))
    (hsi : (lookupField kvs "siteInfo").getD (.jobj []) = .jobj skvs)
    (hread : (fs (osPath_join "content" f) = some .dir
              ∧ m = isADirectoryError_message (osPath_join "content" f))
           ∨ fs (osPath_join "content" f) = some (.file (.unreadable m))) :
    merge_markdown_files fs (.ok (.jobj kvs)) now
      = .ok (merged_result fs skvs (pre ++ f :: post) now)
    ∧ runStr fs (pre ++ f :: post).length 1 (pre ++ f :: post)
      = runStr fs (pre ++ f :: post).length 1 pre
        ++ entryStr fs (pre ++ f :: post).length (1 + pre.length) f
        :: runStr fs (pre ++ f :: post).length (1 + pre.length + 1) post
    ∧ (entryStr fs (pre ++ f :: post).length (1 + pre.length) f).sect
      = some (error_section f m)
    ∧ (entryStr fs (pre ++ f :: post).length (1 + pre.length) f).outcome = .errorO
    ∧ countOutcome .errorO (runStr fs (pre ++ f :: post).length 1 (pre ++ f :: post))
      = countOutcome .errorO
          (runStr fs (pre ++ f :: post).length 1 pre
            ++ runStr fs (pre ++ f :: post).length (1 + pre.length + 1) post) + 1
    ∧ countOutcome .missingO (runStr fs (pre ++ f :: post).length 1 (pre ++ f :: post))
      = countOutcome .missingO
          (runStr fs (pre ++ f :: post).length 1 pre
            ++ runStr fs (pre ++ f :: post).length (1 + pre.length + 1) post)
    ∧ countOutcome .success (runStr fs (pre ++ f :: post).length 1 (pre ++ f :: post))
      = countOutcome .success
          (runStr fs (pre ++ f :: post).length 1 pre
            ++ runStr fs (pre ++ f :: post).length (1 + pre.length + 1) post) := by
  obtain ⟨h1, h2⟩ := merge_insert fs kvs skvs pre post f now hc hchap hsi
  have hsect : (entryStr fs (pre ++ f :: post).length (1 + pre.length) f).sect
        = some (error_section f m)
      ∧ (entryStr fs (pre ++ f :: post).length (1 + pre.length) f).outcome = .errorO := by
    rcases hread with ⟨hd, hm⟩ | hu
    · subst hm
      constructor <;> simp [entryStr, hd]
    · constructor <;> simp [entryStr, hu]
  refine ⟨h1, h2, hsect.1, hsect.2, ?_, ?_, ?_⟩ <;>
    rw [h2, countOutcome_insert, hsect.2] <;> simp

/-- Claim C10, witness: the single chapter names a subdirectory of the
content directory. -/
theorem C10_witness :
    merge_markdown_files fs_subdir (.ok (.jobj [("chapters", .jarr [.jstr "sub"])])) "T"
      = .ok (merged_result fs_subdir [] ["sub"] "T")
    ∧ runStr fs_subdir 1 1 ["sub"]
      = runStr fs_subdir 1 1 [] ++ entryStr fs_subdir 1 1 "sub" :: runStr fs_subdir 1 2 []
    ∧ (entryStr fs_subdir 1 1 "sub").sect
      = some (error_section "sub" (isADirectoryError_message (osPath_join "content" "sub")))
    ∧ (entryStr fs_subdir 1 1 "sub").outcome = .errorO
    ∧ countOutcome .errorO (runStr fs_subdir 1 1 ["sub"])
      = countOutcome .errorO (runStr fs_subdir 1 1 [] ++ runStr fs_subdir 1 2 []) + 1
    ∧ countOutcome .missingO (runStr fs_subdir 1 1 ["sub"])
      = countOutcome .missingO (runStr fs_subdir 1 1 [] ++ runStr fs_subdir 1 2 [])
    ∧ countOutcome .success (runStr fs_subdir 1 1 ["sub"])
      = countOutcome .success (runStr fs_subdir 1 1 [] ++ runStr fs_subdir 1 2 []) :=
  C10_theorem fs_subdir [("chapters", .jarr [.jstr "sub"])] [] [] []
    "sub" (isADirectoryError_message (osPath_join "content" "sub")) "T"
    rfl rfl rfl (Or.inl ⟨rfl, rfl⟩)
